import Mathlib

/-!
Verification of the `/ask` request pipeline of
`src/chatbot_system/backend/chatbot.py` (Flask chatbot backend).

The handler `ask_question` (lines 181-242) and the helper
`detect_hallucination_rag` (lines 114-126) are embedded shallowly below.
External ML calls are abstracted as oracle parameters:
  - the extractive-QA pipeline `qa_pipeline(question=..., context=...)`
    becomes `qa : String → String → Except String QAResult` (the `Except.error`
    branch models the call raising an exception, caught at line 236);
  - RAG generation `rag_model.generate`/`tokenizer.batch_decode`
    (lines 120-122) becomes `ragGenerate : String → String`.
The similarity call on line 125, `util.pytorch_cos_sim(...)`, references the
name `util`, which is never imported or bound anywhere in the module: with
the RAG model loaded that line always raises `NameError`, so
`detect_hallucination_rag` is embedded as returning `Except String Bool`,
with the rag-available branch returning `Except.error` (the exception is
caught by `ask_question`'s inner handler at line 236 as a generic 500).
Module-level model availability (`qa_pipeline`/`rag_model` possibly `None`
after a failed load, lines 69-93) becomes explicit Booleans.
-/

namespace Chatbot

/-- Output record of the extractive-QA oracle: the Python pipeline returns a
dict with an `answer` string and a `score`; line 227 reads `answer['answer']`
and `answer['score']`. -/
structure QAResult where
  answer : String
  score : ℚ
deriving DecidableEq

/-- Body of a JSON response produced by the handlers: either an error payload
`jsonify("error": msg)` or a success payload with `answer`, `confidence`, and
an optional `warning` string (lines 225-234). -/
inductive RespBody where
  | error (msg : String)
  | answerOk (answer : String) (confidence : ℚ) (warning : Option String)
deriving DecidableEq

/-- An HTTP response: status code plus JSON body. -/
structure Response where
  status : Nat
  body : RespBody
deriving DecidableEq

/-- Substring prefix test on character lists (helper for `containsSubstr`). -/
def listPrefixMatch : List Char → List Char → Bool
  | [], _ => true
  | _ :: _, [] => false
  | a :: as, b :: bs => a == b && listPrefixMatch as bs

/-- Substring occurrence test on character lists: does the first list occur
contiguously in the second? -/
def listContains : List Char → List Char → Bool
  | sub, [] => listPrefixMatch sub []
  | sub, b :: bs => listPrefixMatch sub (b :: bs) || listContains sub bs

/-- Python's `sub in s` substring test. -/
def containsSubstr (s sub : String) : Bool :=
  listContains sub.toList s.toList

/-- Python's `str.strip()`: drop leading and trailing whitespace (lines
193-194 apply it to the `question` and `context` fields). ASCII whitespace
only, which is what the claims exercise. -/
def strip (s : String) : String :=
  String.mk (((s.toList.dropWhile Char.isWhitespace).reverse.dropWhile
    Char.isWhitespace).reverse)

/-- The denylist of lines 206-210 of the source, verbatim (in source order):
quotes, SQL tokens, shell metacharacters, braces, control characters — and
ordinary punctuation such as `:` and `,`. -/
def injection_characters : List String :=
  ["\x27", "\"", "--", "/*", "*/", ";", "(", ")", "=", "<", ">", "!=",
   "LIKE", "UNION", "||", "\\", "|", "&", "`", "$", "*", "[", "]",
   "&&", ">", ">>", "\r", "\n", "\x7b", "\x7d", ":", ","]

/-- Python's `round(x, 4)` at line 227. Modelled as round-half-up to 4
decimal places, computed on the numerator and denominator directly:
`⌊q·10000 + 1/2⌋ / 10000 = ⌊(20000·num + den) / (2·den)⌋ / 10000`.
Python rounds half to even at exact five-ten-thousandth ties, where the
two differ — no theorem below evaluates `round4` at such a tie. -/
def round4 (q : ℚ) : ℚ :=
  mkRat (Int.ediv (20000 * q.num + (q.den : ℤ)) (2 * (q.den : ℤ))) 10000

/-- Fixed advisory warning string attached at line 228 when the RAG
consistency check fires. -/
def rag_warning_message : String :=
  "The answer may not be consistent with the document context."

/-- The `NameError` message Python raises on line 125, where the unbound
name `util` is evaluated. -/
def util_name_error : String :=
  "NameError: name \x27util\x27 is not defined"

/-- Lines 114-126: `detect_hallucination_rag(question, context)`.
Returns `False` immediately when the RAG model failed to load
(`if not rag_model`, lines 116-118). Otherwise lines 120-122 generate an
answer from the question alone via the RAG oracles, and line 125 evaluates
`util.pytorch_cos_sim(generated_answer, context)` — but `util` is never
imported or bound in the module, so this line always raises `NameError`;
the similarity comparison against 0.5 on line 126 is unreachable. The raise
is modelled as `Except.error`, a normal return as `Except.ok`. -/
def detect_hallucination_rag (ragAvailable : Bool) (ragGenerate : String → String)
    (question context : String) : Except String Bool :=
  if !ragAvailable then
    Except.ok false
  else
    let _generated_answer := ragGenerate question
    Except.error util_name_error

/-- Lines 181-242: the `/ask` handler. Input `data` is the parsed JSON body
(`none` = `request.get_json()` returned nothing), carrying the raw
`question` and `context` fields. The result pairs the HTTP response with a
Boolean recording whether the extractive-QA oracle was invoked.
Branches, in source order: 503 when the QA model is unavailable; 400 for
invalid JSON; 400 when the stripped question or context is empty; 400 for
over-long question (> 1000 chars) or context (> 100000 chars); 400 when the
question contains any denylist entry; then the inner `try` block, which
calls the oracle and then `detect_hallucination_rag` — an exception from
either (including the `NameError` the consistency check raises whenever the
RAG model is loaded) is caught at line 236 as a generic 500; otherwise the
check's Boolean decides whether the 200 payload carries the advisory
warning. -/
def ask_question (qaAvailable : Bool)
    (qa : String → String → Except String QAResult)
    (ragAvailable : Bool) (ragGenerate : String → String)
    (data : Option (String × String)) : Response × Bool :=
  if !qaAvailable then
    (⟨503, .error "QA model not available"⟩, false)
  else
    match data with
    | none => (⟨400, .error "Invalid JSON"⟩, false)
    | some (rawQuestion, rawContext) =>
      let question := strip rawQuestion
      let context := strip rawContext
      if question.isEmpty || context.isEmpty then
        (⟨400, .error "Question and context are required"⟩, false)
      else if 1000 < question.length then
        (⟨400, .error "Question too long (max 1000 characters)"⟩, false)
      else if 100000 < context.length then
        (⟨400, .error "Context too long (max 100000 characters)"⟩, false)
      else if injection_characters.any (fun c => containsSubstr question c) then
        (⟨400, .error "The given text may contain malicious content. Please revise your question."⟩, false)
      else
        match qa question context with
        | .error _ => (⟨500, .error "Error generating answer"⟩, true)
        | .ok answer =>
          match detect_hallucination_rag ragAvailable ragGenerate question context with
          | .error _ => (⟨500, .error "Error generating answer"⟩, true)
          | .ok true =>
            (⟨200, .answerOk answer.answer (round4 answer.score) (some rag_warning_message)⟩, true)
          | .ok false =>
            (⟨200, .answerOk answer.answer (round4 answer.score) none⟩, true)

/-- Lines 168-170 of `upload_file`: `except Exception as e:
return jsonify("error": str(e)), 500` — the 500 body embeds the exception
text itself. -/
def upload_file_error_response (e : String) : Response :=
  ⟨500, .error e⟩

/-- Lines 240-242 of `ask_question`: the outer exception handler returns a
fixed generic 500 body regardless of the exception. -/
def ask_question_internal_error_response (_e : String) : Response :=
  ⟨500, .error "Internal server error"⟩

/-- A request (after stripping) that clears every pre-oracle validation
branch of `ask_question`: both fields non-empty, within the length caps,
and the question free of denylist entries. -/
def passes_validation (question context : String) : Bool :=
  !question.isEmpty && !context.isEmpty &&
  decide (question.length ≤ 1000) && decide (context.length ≤ 100000) &&
  !(injection_characters.any (fun c => containsSubstr question c))

/-- A constant extractive-QA oracle, used to instantiate theorems at
concrete inputs. -/
def qaConst (res : QAResult) : String → String → Except String QAResult :=
  fun _ _ => Except.ok res

/-- Helper: on a request that passes every validation branch, `ask_question`
reduces to the oracle call followed by the RAG consistency check. -/
theorem ask_question_validated (question context : String)
    (qa : String → String → Except String QAResult)
    (rag : Bool) (rg : String → String)
    (hv : passes_validation (strip question) (strip context) = true) :
    ask_question true qa rag rg (some (question, context)) =
      match qa (strip question) (strip context) with
      | .error _ => (⟨500, .error "Error generating answer"⟩, true)
      | .ok answer =>
        match detect_hallucination_rag rag rg (strip question) (strip context) with
        | .error _ => (⟨500, .error "Error generating answer"⟩, true)
        | .ok true =>
          (⟨200, .answerOk answer.answer (round4 answer.score) (some rag_warning_message)⟩, true)
        | .ok false =>
          (⟨200, .answerOk answer.answer (round4 answer.score) none⟩, true) := by
  simp only [passes_validation, Bool.and_eq_true, Bool.not_eq_true',
    decide_eq_true_eq] at hv
  obtain ⟨⟨⟨⟨hq, hc⟩, hql⟩, hcl⟩, hinj⟩ := hv
  simp only [ask_question, Bool.not_true, Bool.false_eq_true, if_false, hq, hc,
    Bool.or_self, hinj, Nat.not_lt.mpr hql, Nat.not_lt.mpr hcl, if_neg, ite_false]

/-- Claim C1 (code bug): the claim — and the code's own warning branch at
lines 223-229 — intend a consistency finding to ride on a 200 answer payload
as an advisory warning; but whenever the RAG model is loaded the check
raises `NameError` on the unbound name `util` (line 125) before any finding
exists, and the request that reached a successful extraction ends in a 500
failure response instead. Evaluation at the failing input. -/
theorem C1_rag_available_extraction_ends_500 :
    detect_hallucination_rag true (fun _ => "generated") (strip "who") (strip "ctx")
      = Except.error util_name_error ∧
    (ask_question true (qaConst (QAResult.mk "Paris" (mkRat 9 10))) true
      (fun _ => "generated") (some ("who", "ctx"))).1
      = ⟨500, RespBody.error "Error generating answer"⟩ :=
  ⟨rfl, by decide⟩

/-- Claim C2: a request whose (stripped) question exceeds 1000 characters or
whose context exceeds 100000 characters fails with a 400 validation response
and the extractive-QA oracle is never invoked. -/
theorem C2_overlong_input_rejected_before_oracle (question context : String)
    (qa : String → String → Except String QAResult)
    (rag : Bool) (rg : String → String)
    (h : 1000 < (strip question).length ∨ 100000 < (strip context).length) :
    (ask_question true qa rag rg (some (question, context))).1.status = 400 ∧
    (ask_question true qa rag rg (some (question, context))).2 = false := by
  simp only [ask_question, Bool.not_true, Bool.false_eq_true, if_false]
  split_ifs with h1 h2 h3 <;>
    first
      | exact ⟨rfl, rfl⟩
      | exact absurd h (not_or.mpr ⟨h2, h3⟩)

set_option maxRecDepth 100000 in
/-- Witness for C2: a 1001-character question. -/
theorem C2_witness :
    (1000 < (strip (String.mk (List.replicate 1001 'a'))).length ∨
      100000 < (strip "ctx").length) ∧
    ((ask_question true (qaConst (QAResult.mk "x" (mkRat 1 2))) false
        (fun _ => "")
        (some (String.mk (List.replicate 1001 'a'), "ctx"))).1.status = 400 ∧
     (ask_question true (qaConst (QAResult.mk "x" (mkRat 1 2))) false
        (fun _ => "")
        (some (String.mk (List.replicate 1001 'a'), "ctx"))).2 = false) :=
  ⟨by decide,
    C2_overlong_input_rejected_before_oracle (String.mk (List.replicate 1001 'a')) "ctx"
      (qaConst (QAResult.mk "x" (mkRat 1 2))) false (fun _ => "") (by decide)⟩

/-- Claim C3: a question containing any member of the denylist — which
includes ordinary punctuation such as the comma and the colon — makes the
request fail with a 400 validation response before the oracle is reached. -/
theorem C3_denylist_question_rejected_before_oracle (question context : String)
    (qa : String → String → Except String QAResult)
    (rag : Bool) (rg : String → String)
    (h : injection_characters.any (fun c => containsSubstr (strip question) c) = true) :
    ((ask_question true qa rag rg (some (question, context))).1.status = 400 ∧
     (ask_question true qa rag rg (some (question, context))).2 = false) ∧
    "," ∈ injection_characters ∧ ":" ∈ injection_characters := by
  refine ⟨?_, by decide, by decide⟩
  simp only [ask_question, Bool.not_true, Bool.false_eq_true, if_false]
  split_ifs with h1 h2 h3 h4 <;>
    first
      | exact ⟨rfl, rfl⟩
      | exact absurd h h4

/-- Witness for C3: a question containing a comma. -/
theorem C3_witness :
    (injection_characters.any (fun c => containsSubstr (strip "who, what") c) = true) ∧
    (((ask_question true (qaConst (QAResult.mk "x" (mkRat 1 2))) false
        (fun _ => "") (some ("who, what", "ctx"))).1.status = 400 ∧
      (ask_question true (qaConst (QAResult.mk "x" (mkRat 1 2))) false
        (fun _ => "") (some ("who, what", "ctx"))).2 = false) ∧
     "," ∈ injection_characters ∧ ":" ∈ injection_characters) :=
  ⟨by decide,
    C3_denylist_question_rejected_before_oracle "who, what" "ctx"
      (qaConst (QAResult.mk "x" (mkRat 1 2))) false (fun _ => "") (by decide)⟩

/-- Counterexample to claim C4: an extraction with confidence 0.1 (below the
claimed 0.3 threshold) yields, with the RAG model unavailable, a 200
response whose warning field is `none` — no `LowConfidence` warning exists
anywhere in the handler. -/
theorem C4_counterexample :
    (ask_question true (qaConst (QAResult.mk "Paris" (mkRat 1 10))) false
      (fun _ => "") (some ("who", "ctx"))).1
      = ⟨200, RespBody.answerOk "Paris" (mkRat 1 10) none⟩ ∧
    mkRat 1 10 < mkRat 3 10 := by decide

/-- Claim C4 as amended: no `LowConfidence` warning exists. With the RAG
model unavailable, a successful extraction whose confidence is below 0.3
still returns the answer text and rounded score in a 200 response with no
warning of any kind; with the RAG model loaded, the same request instead
fails with the generic 500 (the consistency check raises `NameError` on the
unbound `util`), so in that mode the answer is withheld. -/
theorem C4_low_confidence_answer_still_returned_no_warning (question context : String)
    (qa : String → String → Except String QAResult)
    (rg : String → String) (res : QAResult)
    (hv : passes_validation (strip question) (strip context) = true)
    (hok : qa (strip question) (strip context) = Except.ok res)
    (_hlow : res.score < mkRat 3 10) :
    (ask_question true qa false rg (some (question, context))).1
      = ⟨200, RespBody.answerOk res.answer (round4 res.score) none⟩ ∧
    (ask_question true qa true rg (some (question, context))).1
      = ⟨500, RespBody.error "Error generating answer"⟩ := by
  rw [ask_question_validated question context qa false rg hv,
    ask_question_validated question context qa true rg hv, hok]
  constructor <;> rfl

/-- Witness for the amended C4 at confidence 0.1. -/
theorem C4_witness :
    passes_validation (strip "who") (strip "ctx") = true ∧
    (qaConst (QAResult.mk "Paris" (mkRat 1 10)) (strip "who") (strip "ctx")
      = Except.ok (QAResult.mk "Paris" (mkRat 1 10))) ∧
    mkRat 1 10 < mkRat 3 10 ∧
    ((ask_question true (qaConst (QAResult.mk "Paris" (mkRat 1 10))) false
        (fun _ => "") (some ("who", "ctx"))).1
      = ⟨200, RespBody.answerOk "Paris" (round4 (mkRat 1 10)) none⟩ ∧
     (ask_question true (qaConst (QAResult.mk "Paris" (mkRat 1 10))) true
        (fun _ => "") (some ("who", "ctx"))).1
      = ⟨500, RespBody.error "Error generating answer"⟩) :=
  ⟨by decide, rfl, by decide,
    C4_low_confidence_answer_still_returned_no_warning "who" "ctx"
      (qaConst (QAResult.mk "Paris" (mkRat 1 10))) (fun _ => "")
      (QAResult.mk "Paris" (mkRat 1 10)) (by decide) rfl (by decide)⟩

/-- Claim C5 (code bug): the semantic-similarity check can never attach a
warning at any similarity value, let alone "exactly below 0.1": whenever
the RAG model is available, line 125 raises `NameError` on the unbound
`util` before any similarity is computed and the request 500s (and the dead
comparison on line 126 is written against 0.5 on the RAG-generated answer,
not 0.1 on the extracted answer). Evaluation at the failing input. -/
theorem C5_similarity_check_never_runs :
    detect_hallucination_rag true (fun q => q) (strip "what is this")
      (strip "some context")
      = Except.error util_name_error ∧
    (ask_question true (qaConst (QAResult.mk "an answer" (mkRat 4 5))) true
      (fun q => q) (some ("what is this", "some context"))).1
      = ⟨500, RespBody.error "Error generating answer"⟩ :=
  ⟨rfl, by decide⟩

/-- Counterexample to claim C6: when the oracle returns an empty answer span
with score 0.7 (RAG model unavailable), the handler returns the empty string
and confidence 0.7 verbatim — no sentinel text is substituted and the
confidence is not 0. -/
theorem C6_counterexample :
    (ask_question true (qaConst (QAResult.mk "" (mkRat 7 10))) false
      (fun _ => "") (some ("who", "ctx"))).1
      = ⟨200, RespBody.answerOk "" (mkRat 7 10) none⟩ ∧
    ¬(mkRat 7 10 = 0) := by decide

/-- Claim C6 as amended: no sentinel substitution and no confidence-zeroing
exist. With the RAG model unavailable, an empty oracle answer span is passed
through unchanged — empty answer text and the oracle's own rounded score in
a 200 response; with the RAG model loaded, the request instead fails with
the generic 500 after extraction (`NameError` in the consistency check). -/
theorem C6_empty_answer_passed_through (question context : String)
    (qa : String → String → Except String QAResult)
    (rg : String → String) (res : QAResult)
    (hv : passes_validation (strip question) (strip context) = true)
    (hok : qa (strip question) (strip context) = Except.ok res)
    (hempty : res.answer = "") :
    (ask_question true qa false rg (some (question, context))).1
      = ⟨200, RespBody.answerOk "" (round4 res.score) none⟩ ∧
    (ask_question true qa true rg (some (question, context))).1
      = ⟨500, RespBody.error "Error generating answer"⟩ := by
  rw [ask_question_validated question context qa false rg hv,
    ask_question_validated question context qa true rg hv, hok, ← hempty]
  constructor <;> rfl

/-- Witness for the amended C6 with an empty oracle answer. -/
theorem C6_witness :
    passes_validation (strip "who") (strip "ctx") = true ∧
    (qaConst (QAResult.mk "" (mkRat 7 10)) (strip "who") (strip "ctx")
      = Except.ok (QAResult.mk "" (mkRat 7 10))) ∧
    ((QAResult.mk "" (mkRat 7 10)).answer = "") ∧
    ((ask_question true (qaConst (QAResult.mk "" (mkRat 7 10))) false
        (fun _ => "") (some ("who", "ctx"))).1
      = ⟨200, RespBody.answerOk "" (round4 (mkRat 7 10)) none⟩ ∧
     (ask_question true (qaConst (QAResult.mk "" (mkRat 7 10))) true
        (fun _ => "") (some ("who", "ctx"))).1
      = ⟨500, RespBody.error "Error generating answer"⟩) :=
  ⟨by decide, rfl, rfl,
    C6_empty_answer_passed_through "who" "ctx" (qaConst (QAResult.mk "" (mkRat 7 10)))
      (fun _ => "") (QAResult.mk "" (mkRat 7 10)) (by decide) rfl rfl⟩

/-- Counterexample to claim C7: the answer "Berlin" appears nowhere in the
context, yet the 200 response (RAG model unavailable) carries no warning at
all — no entity-overlap check runs and no `Hallucination` warning listing
the missing entities is ever produced. -/
theorem C7_counterexample :
    (ask_question true (qaConst (QAResult.mk "Berlin" (mkRat 4 5))) false
      (fun _ => "") (some ("who", "the capital of France"))).1
      = ⟨200, RespBody.answerOk "Berlin" (mkRat 4 5) none⟩ ∧
    containsSubstr "the capital of France" "Berlin" = false := by decide

/-- Claim C7 as amended: no entity-overlap check exists; the only warning a
successful response can carry is the single fixed RAG-consistency string
(or none), never a set of entities. -/
theorem C7_only_generic_warning_no_entity_check (qaAvailable : Bool)
    (qa : String → String → Except String QAResult)
    (rag : Bool) (rg : String → String)
    (data : Option (String × String)) (ans : String) (conf : ℚ) (w : Option String)
    (h : (ask_question qaAvailable qa rag rg data).1.body
      = RespBody.answerOk ans conf w) :
    w = none ∨ w = some rag_warning_message := by
  unfold ask_question at h
  split at h
  · simp at h
  · split at h
    · simp at h
    · dsimp only [] at h
      split at h
      · simp at h
      · split at h
        · simp at h
        · split at h
          · simp at h
          · split at h
            · simp at h
            · split at h
              · simp at h
              · split at h
                · simp at h
                · simp at h
                  exact Or.inr h.2.2.symm
                · simp at h
                  exact Or.inl h.2.2.symm

/-- Witness for the amended C7. -/
theorem C7_witness :
    ((ask_question true (qaConst (QAResult.mk "Berlin" (mkRat 4 5))) false
        (fun _ => "") (some ("who", "ctx"))).1.body
      = RespBody.answerOk "Berlin" (round4 (mkRat 4 5)) none) ∧
    ((none : Option String) = none ∨ (none : Option String) = some rag_warning_message) :=
  ⟨by decide,
    C7_only_generic_warning_no_entity_check true (qaConst (QAResult.mk "Berlin" (mkRat 4 5)))
      false (fun _ => "") (some ("who", "ctx")) "Berlin" (round4 (mkRat 4 5))
      none (by decide)⟩

/-- Counterexample to claim C8: a request with a non-empty question and an
empty context is rejected with a 400 "Question and context are required"
response — the context is not optional. -/
theorem C8_counterexample :
    (ask_question true (qaConst (QAResult.mk "x" (mkRat 1 2))) false
      (fun _ => "") (some ("who", ""))).1
      = ⟨400, RespBody.error "Question and context are required"⟩ ∧
    ¬((strip "who").isEmpty = true) := by decide

/-- Claim C8 as amended: a Query requires both a non-empty question and a
non-empty context; any request whose stripped context is empty is rejected
with the 400 validation response, and the oracle is not called. -/
theorem C8_empty_context_rejected (question context : String)
    (qa : String → String → Except String QAResult)
    (rag : Bool) (rg : String → String)
    (h : (strip context).isEmpty = true) :
    (ask_question true qa rag rg (some (question, context))).1
      = ⟨400, RespBody.error "Question and context are required"⟩ ∧
    (ask_question true qa rag rg (some (question, context))).2 = false := by
  simp only [ask_question, Bool.not_true, Bool.false_eq_true, if_false, h,
    Bool.or_true, if_true]
  constructor <;> trivial

/-- Witness for the amended C8. -/
theorem C8_witness :
    ((strip "").isEmpty = true) ∧
    ((ask_question true (qaConst (QAResult.mk "x" (mkRat 1 2))) false
        (fun _ => "") (some ("who", ""))).1
      = ⟨400, RespBody.error "Question and context are required"⟩ ∧
     (ask_question true (qaConst (QAResult.mk "x" (mkRat 1 2))) false
        (fun _ => "") (some ("who", ""))).2 = false) :=
  ⟨by decide,
    C8_empty_context_rejected "who" "" (qaConst (QAResult.mk "x" (mkRat 1 2))) false
      (fun _ => "") (by decide)⟩

/-- Counterexample to claim C9: the `upload_file` exception handler embeds
`str(e)` in its 500 body, so two different internal errors produce two
different response bodies — the internal error content leaks. -/
theorem C9_counterexample :
    upload_file_error_response "division by zero"
      ≠ upload_file_error_response "No such file or directory" ∧
    upload_file_error_response "division by zero"
      = ⟨500, RespBody.error "division by zero"⟩ := by decide

/-- Claim C9 as amended: within `ask_question` the 500 bodies are fixed and
independent of the internal error's content (both the outer handler and the
oracle-exception branch), but `upload_file`'s handler does leak `str(e)`. -/
theorem C9_ask_internal_errors_fixed_body (e₁ e₂ : String) :
    ask_question_internal_error_response e₁ = ask_question_internal_error_response e₂ ∧
    (ask_question true (fun _ _ => (Except.error e₁ : Except String QAResult)) false
        (fun _ => "") (some ("who", "ctx"))).1
      = (ask_question true (fun _ _ => (Except.error e₂ : Except String QAResult)) false
        (fun _ => "") (some ("who", "ctx"))).1 := by
  refine ⟨rfl, ?_⟩
  rw [ask_question_validated "who" "ctx" _ false (fun _ => "") (by decide),
    ask_question_validated "who" "ctx" _ false (fun _ => "") (by decide)]

/-- Claim C10: when the RAG model is unavailable, `detect_hallucination_rag`
returns `False` on every input, and consequently no successful `/ask`
response ever carries a consistency warning. -/
theorem C10_rag_unavailable_never_warns (qaAvailable : Bool)
    (qa : String → String → Except String QAResult)
    (rg : String → String)
    (data : Option (String × String)) (ans : String) (conf : ℚ) (w : Option String)
    (q c : String)
    (h : (ask_question qaAvailable qa false rg data).1.body
      = RespBody.answerOk ans conf w) :
    detect_hallucination_rag false rg q c = Except.ok false ∧ w = none := by
  refine ⟨rfl, ?_⟩
  unfold ask_question at h
  split at h
  · simp at h
  · split at h
    · simp at h
    · dsimp only [] at h
      split at h
      · simp at h
      · split at h
        · simp at h
        · split at h
          · simp at h
          · split at h
            · simp at h
            · split at h
              · simp at h
              · split at h
                · simp at h
                · rename_i hdet
                  simp [detect_hallucination_rag] at hdet
                · simp at h
                  exact h.2.2.symm

/-- Witness for C10. -/
theorem C10_witness :
    ((ask_question true (qaConst (QAResult.mk "Paris" (mkRat 1 2))) false
        (fun _ => "") (some ("who", "ctx"))).1.body
      = RespBody.answerOk "Paris" (round4 (mkRat 1 2)) none) ∧
    (detect_hallucination_rag false (fun _ => "") "q" "c" = Except.ok false ∧
      (none : Option String) = none) :=
  ⟨by decide,
    C10_rag_unavailable_never_warns true (qaConst (QAResult.mk "Paris" (mkRat 1 2)))
      (fun _ => "") (some ("who", "ctx")) "Paris" (round4 (mkRat 1 2)) none
      "q" "c" (by decide)⟩

end Chatbot
